import Mathlib

/-
Verification of the lead-intake flow of the local-authority-lead-engine
repository.  The definitions below are a shallow embedding of
src/backend/app.py (endpoint `create_lead`), src/backend/database.py
(the Site and Lead relations), src/backend/sales_automation.py
(`check_leads_and_trigger_outreach`) and
src/site_generator/generate_site.py (`load_top_niche` and `main`).
Python strings are Lean `String`s, nullable columns are `Option`,
datetimes are `Int` seconds, and the database is an explicit record of
the two tables plus the autoincrement counters and the current clock.
-/

namespace LeadEngine

/-- Python `str.strip()` whitespace set restricted to ASCII: space, tab,
newline, carriage return, vertical tab and form feed. -/
def isPySpace (c : Char) : Bool :=
  c = ' ' || c = '\t' || c = '\n' || c = '\r' || c = '\x0b' || c = '\x0c'

/-- Python `str.strip()`: drop leading and trailing whitespace. -/
def pyStrip (s : String) : String :=
  String.mk (((s.data.dropWhile isPySpace).reverse.dropWhile isPySpace).reverse)

/-- Helper for `pyTitle`: the boolean says whether the previous character
was cased (alphabetic, in the ASCII range modelled here). -/
def pyTitleGo : Bool → List Char → List Char
  | _, [] => []
  | prevCased, c :: cs =>
    (if c.isAlpha then (if prevCased then c.toLower else c.toUpper) else c)
      :: pyTitleGo c.isAlpha cs

/-- Python `str.title()` on ASCII text: an alphabetic character is
uppercased when the preceding character is not alphabetic and lowercased
otherwise. -/
def pyTitle (s : String) : String :=
  String.mk (pyTitleGo false s.data)

/-- Python `s.split(sep)` for a one-character separator, over the
character list: splitting the empty string gives `[[]]`, and every
occurrence of the separator starts a new (possibly empty) part. -/
def pySplit (sep : Char) : List Char → List (List Char)
  | [] => [[]]
  | c :: cs =>
    match pySplit sep cs with
    | r :: rs => if c = sep then [] :: r :: rs else (c :: r) :: rs
    | [] => if c = sep then [[], []] else [[c]]

/-- Python `s.split(sep)` as a `String` operation. -/
def pySplitOn (sep : Char) (s : String) : List String :=
  (pySplit sep s.data).map String.mk

/-- Python `s.replace(a, b)` for one-character pattern and replacement:
a character-wise substitution. -/
def pyReplaceChar (a b : Char) (s : String) : String :=
  String.mk (s.data.map (fun c => if c = a then b else c))

/-- Python truthiness of a nullable string column: `None` and the empty
string are falsy, every other string is truthy.  This is the test
`if site.partner_email:` performs in src/backend/app.py. -/
def pyTruthy : Option String → Bool
  | none => false
  | some s => s != ""

/-- A row of the `sites` table (src/backend/database.py): autoincrement id,
unique slug, niche, city, and a nullable partner contact email. -/
structure Site where
  id : Nat
  slug : String
  niche : String
  city : String
  partner_email : Option String
  deriving Repr, DecidableEq

/-- A row of the `leads` table (src/backend/database.py): autoincrement id,
foreign key to the owning site, required name and phone, nullable
email/service/message, creation timestamp (defaulted to the current time
at insert) and the routed flag (defaulted to false). -/
structure Lead where
  id : Nat
  site_id : Nat
  name : String
  phone : String
  email : Option String
  service : Option String
  message : Option String
  timestamp : Int
  routed : Bool
  deriving Repr, DecidableEq

/-- The persistent state: the two tables, the autoincrement counters, and
the current UTC clock (used for `datetime.utcnow`). -/
structure DB where
  sites : List Site
  leads : List Lead
  nextSiteId : Nat
  nextLeadId : Nat
  now : Int
  deriving Repr, DecidableEq

/-- The six form fields of a POST to `/api/lead`: `site_slug`, `name` and
`phone` are required form fields, the remaining three default to `None`. -/
structure Submission where
  site_slug : String
  name : String
  phone : String
  email : Option String
  service : Option String
  message : Option String
  deriving Repr, DecidableEq

/-- Outcome of the endpoint: an `HTTPException` with status code and
detail, or a 200 response whose body carries one fixed message. -/
inductive LeadResult where
  | httpError (status_code : Nat) (detail : String)
  | ok (message : String)
  deriving Repr, DecidableEq

/-- Response body when the site had a truthy partner contact. -/
def ROUTED_MESSAGE : String :=
  "Thank you! Your request has been routed to our local partner."

/-- Response body when the site had no (truthy) partner contact. -/
def UNROUTED_MESSAGE : String :=
  "Thank you for contacting us. We will reach out shortly."

/-- `db.query(Site).filter_by(slug=site_slug).first()`. -/
def findSite (sites : List Site) (slug : String) : Option Site :=
  sites.find? (fun s => s.slug == slug)

/-- Slug-derived niche and city (src/backend/app.py lines 68-77):
`site_slug.split("_")` unpacked into exactly two parts gives
niche/city by replacing hyphens with spaces and title-casing; any other
number of parts raises ValueError and falls back to the raw slug and
the literal city "Unknown". -/
def deriveNicheCity (slug : String) : String × String :=
  match pySplitOn '_' slug with
  | [niche_part, city_part] =>
    (pyTitle (pyReplaceChar '-' ' ' niche_part), pyTitle (pyReplaceChar '-' ' ' city_part))
  | _ => (slug, "Unknown")

/-- The Site row inserted for an unknown slug: derived niche and city,
no partner contact, next autoincrement id. -/
def newSite (db : DB) (slug : String) : Site :=
  { id := db.nextSiteId
    slug := slug
    niche := (deriveNicheCity slug).1
    city := (deriveNicheCity slug).2
    partner_email := none }

/-- The find-or-create block of `create_lead`: look the slug up; when
absent, insert a new Site row and commit. -/
def resolveSite (db : DB) (slug : String) : DB × Site :=
  match findSite db.sites slug with
  | some site => (db, site)
  | none =>
    let site := newSite db slug
    ({ db with sites := db.sites ++ [site], nextSiteId := db.nextSiteId + 1 }, site)

/-- The Lead row inserted by `create_lead`: all submitted fields stored
as received, timestamp defaulted to the current time, routed false. -/
def newLead (db : DB) (site : Site) (sub : Submission) : Lead :=
  { id := db.nextLeadId
    site_id := site.id
    name := sub.name
    phone := sub.phone
    email := sub.email
    service := sub.service
    message := sub.message
    timestamp := db.now
    routed := false }

/-- The `/api/lead` handler (src/backend/app.py, `create_lead`):
validate that name and phone are non-blank after stripping, find or
create the Site for the slug, insert the Lead, then, when the resolved
Site's partner contact is truthy, flip the new row's routed flag to true
and answer with the routed message, otherwise answer with the
we-will-reach-out message. -/
def create_lead (db : DB) (sub : Submission) : DB × LeadResult :=
  if pyStrip sub.name = "" ∨ pyStrip sub.phone = "" then
    (db, .httpError 400 "Name and phone are required.")
  else
    let r := resolveSite db sub.site_slug
    let db1 := r.1
    let site := r.2
    let lead := newLead db1 site sub
    let db2 := { db1 with leads := db1.leads ++ [lead], nextLeadId := db1.nextLeadId + 1 }
    if pyTruthy site.partner_email then
      ({ db2 with leads := db1.leads ++ [{ lead with routed := true }] },
        .ok ROUTED_MESSAGE)
    else
      (db2, .ok UNROUTED_MESSAGE)

/-- An empty database with clock `t`. -/
def emptyDB (t : Int) : DB :=
  { sites := [], leads := [], nextSiteId := 1, nextLeadId := 1, now := t }

example : pyTitle "water damage restoration" = "Water Damage Restoration" := by decide

example : pyStrip "  jane \t" = "jane" := by decide

example : deriveNicheCity "water-damage-restoration_dallas" =
    ("Water Damage Restoration", "Dallas") := by decide

example : deriveNicheCity "water-damage-restoration" =
    ("water-damage-restoration", "Unknown") := by decide

example : deriveNicheCity "a_b_c" = ("a_b_c", "Unknown") := by decide

/-! Embedding of src/backend/sales_automation.py. -/

/-- Threshold: number of leads in the past 30 days to trigger outreach. -/
def LEAD_THRESHOLD : Nat := 5

/-- `datetime.utcnow() - timedelta(days=30)` in seconds. -/
def cutoff (now : Int) : Int := now - 30 * 86400

/-- The per-site lead count of the automation loop: leads of the site
whose timestamp is at least the 30-day cutoff. -/
def recentLeadCount (db : DB) (siteId : Nat) : Nat :=
  (db.leads.filter (fun l => l.site_id == siteId && decide (cutoff db.now ≤ l.timestamp))).length

/-- The notification artifact printed by the automation loop: the
console line names the slug, count and city, and the drafted email body
names the niche, city and count. -/
structure Outreach where
  slug : String
  niche : String
  city : String
  count : Nat
  email_body : String
  deriving Repr, DecidableEq

/-- The drafted outreach email body of
`check_leads_and_trigger_outreach`. -/
def outreachBody (site : Site) (count : Nat) : String :=
  "Hello,\n\nWe operate " ++ site.niche ++ " websites in " ++ site.city
    ++ " and have generated " ++ toString count ++ " high-intent leads "
    ++ "over the past 30 days. We are looking for a local business partner to take these leads on a "
    ++ "pay-per-lead or subscription basis. If you are interested, please reply to discuss pricing.\n\n"
    ++ "Regards,\nLocal Authority Lead Engine"

/-- The artifact produced for one qualifying site. -/
def outreachArtifact (site : Site) (count : Nat) : Outreach :=
  { slug := site.slug
    niche := site.niche
    city := site.city
    count := count
    email_body := outreachBody site count }

/-- `check_leads_and_trigger_outreach` (src/backend/sales_automation.py):
for every site whose partner_email is SQL NULL, count its leads with
timestamp at least the 30-day cutoff, and emit a notification artifact
when the count reaches LEAD_THRESHOLD. -/
def check_leads_and_trigger_outreach (db : DB) : List Outreach :=
  (db.sites.filter (fun s => s.partner_email.isNone)).filterMap (fun site =>
    let count := recentLeadCount db site.id
    if LEAD_THRESHOLD ≤ count then some (outreachArtifact site count) else none)

end LeadEngine

namespace SiteGenerator

/-- One record of data/top_niches.json as consumed by
src/site_generator/generate_site.py: `render_pages` reads only the
`niche` and `city` keys of the dictionary, so only those two fields are
modelled here (rank, cpc, difficulty and rationale are never read by the
generator). -/
structure NicheData where
  niche : String
  city : String
  deriving Repr, DecidableEq

/-- A sub-service entry of the `sub_services` list in `render_pages`. -/
structure Service where
  name : String
  slug : String
  description : String
  deriving Repr, DecidableEq

/-- The hard-coded `sub_services` list of `render_pages`. -/
def sub_services : List Service :=
  [ { name := "Water Extraction", slug := "water-extraction",
      description := "Rapid removal of standing water using industrial pumps and vacuums." },
    { name := "Structural Drying", slug := "structural-drying",
      description := "Drying and dehumidification of walls, floors and other structural elements." },
    { name := "Mold Remediation", slug := "mold-remediation",
      description := "Safe removal and prevention of mold and mildew growth." } ]

/-- Python `str.lower()` on ASCII text. -/
def pyLower (s : String) : String :=
  String.mk (s.data.map Char.toLower)

/-- The site slug `render_pages` derives:
`f"{niche.lower().replace(' ', '-')}_{city.lower().replace(' ', '-')}"`. -/
def siteSlugOf (nd : NicheData) : String :=
  LeadEngine.pyReplaceChar ' ' '-' (pyLower nd.niche) ++ "_"
    ++ LeadEngine.pyReplaceChar ' ' '-' (pyLower nd.city)

/-- The output files `render_pages` writes for a niche record, as paths
relative to the output directory: the homepage, one page per
sub-service, the FAQ page, the sitemap and the robots file. -/
def render_pages (nd : NicheData) : List String :=
  let site_slug := siteSlugOf nd
  [site_slug ++ "/index.html"]
    ++ sub_services.map (fun s => site_slug ++ "/" ++ s.slug ++ ".html")
    ++ [site_slug ++ "/faq.html", site_slug ++ "/sitemap.xml", site_slug ++ "/robots.txt"]

/-- `load_top_niche` (src/site_generator/generate_site.py): raise
ValueError on an empty ranking list, otherwise return the first entry. -/
def load_top_niche : List NicheData → Except String NicheData
  | [] => .error "No niche data found. Run niche_selection.py first."
  | d :: _ => .ok d

/-- `main` of src/site_generator/generate_site.py over the observable
content of data/top_niches.json: `none` models an absent file
(FileNotFoundError), `some data` the parsed ranking list.  On success the
result lists the files `render_pages` writes; on either failure the error
is raised before `render_pages` runs, so nothing is written. -/
def generate_main (file : Option (List NicheData)) : Except String (List String) :=
  match file with
  | none => .error "data/top_niches.json not found. Run niche_selection.py first."
  | some data =>
    match load_top_niche data with
    | .error e => .error e
    | .ok nd => .ok (render_pages nd)

/-- The files a generation run wrote: none when it failed. -/
def writtenFiles : Except String (List String) → List String
  | .error _ => []
  | .ok fs => fs

example : generate_main (some [{ niche := "Water Damage Restoration", city := "Dallas" }])
    = .ok [ "water-damage-restoration_dallas/index.html",
            "water-damage-restoration_dallas/water-extraction.html",
            "water-damage-restoration_dallas/structural-drying.html",
            "water-damage-restoration_dallas/mold-remediation.html",
            "water-damage-restoration_dallas/faq.html",
            "water-damage-restoration_dallas/sitemap.xml",
            "water-damage-restoration_dallas/robots.txt" ] := rfl

end SiteGenerator

namespace LeadEngine

/-- Resolving a site never touches the leads table, the lead counter or
the clock. -/
theorem resolveSite_leads (db : DB) (slug : String) :
    (resolveSite db slug).1.leads = db.leads := by
  unfold resolveSite
  cases h : findSite db.sites slug <;> simp

/-- Computation lemma: an accepted submission for an unknown slug
creates the derived Site, appends one unrouted Lead referencing it, and
answers the we-will-reach-out message (the fresh Site has no partner). -/
theorem create_lead_unknown_slug (db : DB) (sub : Submission)
    (hn : pyStrip sub.name ≠ "") (hp : pyStrip sub.phone ≠ "")
    (hnone : findSite db.sites sub.site_slug = none) :
    create_lead db sub =
      ({ sites := db.sites ++ [newSite db sub.site_slug],
         leads := db.leads ++ [newLead db (newSite db sub.site_slug) sub],
         nextSiteId := db.nextSiteId + 1,
         nextLeadId := db.nextLeadId + 1,
         now := db.now }, .ok UNROUTED_MESSAGE) := by
  have hcond : ¬(pyStrip sub.name = "" ∨ pyStrip sub.phone = "") := not_or.mpr ⟨hn, hp⟩
  simp only [create_lead, if_neg hcond, resolveSite, hnone]
  have hfalse : pyTruthy (newSite db sub.site_slug).partner_email = false := by
    simp [newSite, pyTruthy]
  simp [hfalse, newLead]

/-- Computation lemma: an accepted submission for a known slug whose
site has a falsy partner contact appends one unrouted Lead and answers
the we-will-reach-out message, leaving everything else unchanged. -/
theorem create_lead_known_unpartnered (db : DB) (sub : Submission) (site : Site)
    (hn : pyStrip sub.name ≠ "") (hp : pyStrip sub.phone ≠ "")
    (hfound : findSite db.sites sub.site_slug = some site)
    (hpf : pyTruthy site.partner_email = false) :
    create_lead db sub =
      ({ db with
          leads := db.leads ++ [newLead db site sub],
          nextLeadId := db.nextLeadId + 1 }, .ok UNROUTED_MESSAGE) := by
  have hcond : ¬(pyStrip sub.name = "" ∨ pyStrip sub.phone = "") := not_or.mpr ⟨hn, hp⟩
  simp only [create_lead, if_neg hcond, resolveSite, hfound]
  simp [hpf]

/-- Claim C2: when name or phone trims to the empty string the handler
answers HTTP 400 with the fixed detail message and the database state is
returned unchanged, so no Lead row and no Site row is created by the
request. -/
theorem c2_blank_input_rejected_state_unchanged (db : DB) (sub : Submission)
    (h : pyStrip sub.name = "" ∨ pyStrip sub.phone = "") :
    create_lead db sub = (db, .httpError 400 "Name and phone are required.") := by
  simp [create_lead, if_pos h]

/-- Witness for C2 at a concrete blank-phone submission. -/
theorem c2_blank_input_witness :
    create_lead (emptyDB 0)
        { site_slug := "roofers_tulsa", name := "Jane", phone := "   ",
          email := none, service := none, message := none }
      = (emptyDB 0, .httpError 400 "Name and phone are required.") :=
  c2_blank_input_rejected_state_unchanged (emptyDB 0) _ (Or.inr (by decide))

/-- Claim C3: an accepted submission with an unknown slug that splits on
the underscore into exactly the two parts a and b creates one new Site
row with that slug, niche and city obtained from a and b by replacing
hyphens with spaces and title-casing, and no partner contact. -/
theorem c3_new_site_from_two_part_slug (db : DB) (sub : Submission) (a b : String)
    (hn : pyStrip sub.name ≠ "") (hp : pyStrip sub.phone ≠ "")
    (hnew : findSite db.sites sub.site_slug = none)
    (hsplit : pySplitOn '_' sub.site_slug = [a, b]) :
    (create_lead db sub).1.sites = db.sites ++
      [{ id := db.nextSiteId, slug := sub.site_slug,
         niche := pyTitle (pyReplaceChar '-' ' ' a),
         city := pyTitle (pyReplaceChar '-' ' ' b),
         partner_email := none }] := by
  have hcond : ¬(pyStrip sub.name = "" ∨ pyStrip sub.phone = "") := not_or.mpr ⟨hn, hp⟩
  simp only [create_lead, if_neg hcond, resolveSite, hnew, newSite, deriveNicheCity, hsplit]
  split <;> simp

/-- Witness for C3 at the spec's end-to-end example slug. -/
theorem c3_new_site_witness :
    (create_lead (emptyDB 0)
        { site_slug := "water-damage-restoration_dallas", name := "Jane Doe",
          phone := "555-123-4567", email := none, service := none, message := none }).1.sites
      = [{ id := 1, slug := "water-damage-restoration_dallas",
           niche := "Water Damage Restoration", city := "Dallas",
           partner_email := none }] := by
  have h := c3_new_site_from_two_part_slug (emptyDB 0)
    { site_slug := "water-damage-restoration_dallas", name := "Jane Doe",
      phone := "555-123-4567", email := none, service := none, message := none }
    "water-damage-restoration" "dallas" (by decide) (by decide) (by decide) (by decide)
  simpa using h

/-- Claim C4: an accepted submission with an unknown slug whose
underscore split does not give exactly two parts creates the Site with
niche equal to the raw slug and city equal to the literal "Unknown". -/
theorem c4_new_site_fallback_unknown_city (db : DB) (sub : Submission)
    (hn : pyStrip sub.name ≠ "") (hp : pyStrip sub.phone ≠ "")
    (hnew : findSite db.sites sub.site_slug = none)
    (hlen : (pySplitOn '_' sub.site_slug).length ≠ 2) :
    (create_lead db sub).1.sites = db.sites ++
      [{ id := db.nextSiteId, slug := sub.site_slug,
         niche := sub.site_slug, city := "Unknown", partner_email := none }] := by
  have hcond : ¬(pyStrip sub.name = "" ∨ pyStrip sub.phone = "") := not_or.mpr ⟨hn, hp⟩
  have hd : deriveNicheCity sub.site_slug = (sub.site_slug, "Unknown") := by
    unfold deriveNicheCity
    cases h : pySplitOn '_' sub.site_slug with
    | nil => rfl
    | cons x xs =>
      cases xs with
      | nil => rfl
      | cons y ys =>
        cases ys with
        | nil => exact absurd (by rw [h]; rfl) hlen
        | cons z zs => rfl
  simp only [create_lead, if_neg hcond, resolveSite, hnew, newSite, hd]
  split <;> simp

/-- Witness for C4 at the separator-free slug of the test suite. -/
theorem c4_fallback_witness :
    (create_lead (emptyDB 0)
        { site_slug := "water-damage-restoration", name := "Jane Doe",
          phone := "555-123-4567", email := none, service := none, message := none }).1.sites
      = [{ id := 1, slug := "water-damage-restoration",
           niche := "water-damage-restoration", city := "Unknown",
           partner_email := none }] := by
  have h := c4_new_site_fallback_unknown_city (emptyDB 0)
    { site_slug := "water-damage-restoration", name := "Jane Doe",
      phone := "555-123-4567", email := none, service := none, message := none }
    (by decide) (by decide) (by decide) (by decide)
  simpa using h

/-- A site whose partner contact is the empty string: non-null in the
database, but falsy for the routing check. -/
def exSite1 : Site :=
  { id := 1, slug := "plumbers_austin", niche := "Plumbers", city := "Austin",
    partner_email := some "" }

/-- A database holding only `exSite1`. -/
def exDb1 : DB :=
  { sites := [exSite1], leads := [], nextSiteId := 2, nextLeadId := 1, now := 0 }

/-- A valid submission against `exSite1`. -/
def exSub1 : Submission :=
  { site_slug := "plumbers_austin", name := "Jane Doe", phone := "555-0100",
    email := none, service := none, message := none }

/-- Counterexample to claim C1 as stated: the resolved site's partner
contact is non-null (it is the empty string), the submission is
accepted, yet the handler answers with the we-will-reach-out message,
not the routed message, and the stored lead has routed = false. -/
theorem c1_nonnull_partner_counterexample :
    (pyStrip exSub1.name ≠ "" ∧ pyStrip exSub1.phone ≠ "")
    ∧ findSite exDb1.sites exSub1.site_slug = some exSite1
    ∧ exSite1.partner_email ≠ none
    ∧ (create_lead exDb1 exSub1).2 ≠ .ok ROUTED_MESSAGE
    ∧ (create_lead exDb1 exSub1).2 = .ok UNROUTED_MESSAGE
    ∧ (create_lead exDb1 exSub1).1.leads.map Lead.routed = [false] := by
  decide

/-- Claim C1 (amended): for an accepted submission, the handler answers
the routed message with the new lead stored routed = true exactly when
the resolved site's partner contact is truthy (non-null and non-empty)
at creation time, and the we-will-reach-out message with routed = false
exactly otherwise. -/
theorem c1_routed_iff_truthy_partner (db : DB) (sub : Submission)
    (hn : pyStrip sub.name ≠ "") (hp : pyStrip sub.phone ≠ "") :
    (((create_lead db sub).2 = .ok ROUTED_MESSAGE
        ∧ (create_lead db sub).1.leads.getLast?.map Lead.routed = some true)
      ↔ pyTruthy (resolveSite db sub.site_slug).2.partner_email = true)
    ∧ (((create_lead db sub).2 = .ok UNROUTED_MESSAGE
        ∧ (create_lead db sub).1.leads.getLast?.map Lead.routed = some false)
      ↔ pyTruthy (resolveSite db sub.site_slug).2.partner_email = false) := by
  have hcond : ¬(pyStrip sub.name = "" ∨ pyStrip sub.phone = "") := not_or.mpr ⟨hn, hp⟩
  have hmsg : ROUTED_MESSAGE ≠ UNROUTED_MESSAGE := by decide
  simp only [create_lead, if_neg hcond]
  cases hpt : pyTruthy (resolveSite db sub.site_slug).2.partner_email <;>
    simp [hpt, List.getLast?_concat, newLead, hmsg, hmsg.symm]

/-- A site with a non-empty partner contact. -/
def exSiteP : Site :=
  { id := 7, slug := "hvac_denver", niche := "Hvac", city := "Denver",
    partner_email := some "partner@example.com" }

/-- A database holding only `exSiteP`. -/
def exDbP : DB :=
  { sites := [exSiteP], leads := [], nextSiteId := 8, nextLeadId := 1, now := 1000 }

/-- A valid submission against `exSiteP`. -/
def exSubP : Submission :=
  { site_slug := "hvac_denver", name := "Bob Roe", phone := "555-0101",
    email := none, service := none, message := none }

/-- Witness for the amended C1 at a concrete partnered site: the routed
response and flag are produced. -/
theorem c1_routed_witness :
    (create_lead exDbP exSubP).2 = .ok ROUTED_MESSAGE
    ∧ (create_lead exDbP exSubP).1.leads.getLast?.map Lead.routed = some true := by
  have h := (c1_routed_iff_truthy_partner exDbP exSubP (by decide) (by decide)).1.mpr
    (by decide)
  exact h

/-- Claim C9: when the resolved site's partner contact is the empty
string (non-null but empty), the routing check treats the site as
unpartnered: the handler answers the we-will-reach-out message and the
stored lead keeps routed = false. -/
theorem c9_empty_partner_treated_unpartnered (db : DB) (sub : Submission) (site : Site)
    (hn : pyStrip sub.name ≠ "") (hp : pyStrip sub.phone ≠ "")
    (hfound : findSite db.sites sub.site_slug = some site)
    (hpe : site.partner_email = some "") :
    (create_lead db sub).2 = .ok UNROUTED_MESSAGE
    ∧ (create_lead db sub).1.leads = db.leads ++ [newLead db site sub]
    ∧ (newLead db site sub).routed = false := by
  have hcond : ¬(pyStrip sub.name = "" ∨ pyStrip sub.phone = "") := not_or.mpr ⟨hn, hp⟩
  simp only [create_lead, if_neg hcond, resolveSite, hfound]
  simp [pyTruthy, hpe, newLead]

/-- Witness for C9 at the concrete empty-string-partner site. -/
theorem c9_empty_partner_witness :
    (create_lead exDb1 exSub1).2 = .ok UNROUTED_MESSAGE
    ∧ (create_lead exDb1 exSub1).1.leads = exDb1.leads ++ [newLead exDb1 exSite1 exSub1]
    ∧ (newLead exDb1 exSite1 exSub1).routed = false :=
  c9_empty_partner_treated_unpartnered exDb1 exSub1 exSite1
    (by decide) (by decide) (by decide) (by decide)

/-- Claim C10: the stored lead's name, phone, email, service and message
fields equal the submitted values exactly as received; trimming is used
only in the validation check, never on the persisted values. -/
theorem c10_fields_stored_verbatim (db : DB) (sub : Submission)
    (hn : pyStrip sub.name ≠ "") (hp : pyStrip sub.phone ≠ "") :
    ∃ lead : Lead, (create_lead db sub).1.leads = db.leads ++ [lead]
      ∧ lead.name = sub.name ∧ lead.phone = sub.phone ∧ lead.email = sub.email
      ∧ lead.service = sub.service ∧ lead.message = sub.message := by
  have hcond : ¬(pyStrip sub.name = "" ∨ pyStrip sub.phone = "") := not_or.mpr ⟨hn, hp⟩
  have hl := resolveSite_leads db sub.site_slug
  simp only [create_lead, if_neg hcond]
  split
  · exact ⟨{ newLead (resolveSite db sub.site_slug).1 (resolveSite db sub.site_slug).2 sub
        with routed := true }, by simp [hl], by simp [newLead], by simp [newLead],
      by simp [newLead], by simp [newLead], by simp [newLead]⟩
  · exact ⟨newLead (resolveSite db sub.site_slug).1 (resolveSite db sub.site_slug).2 sub,
      by simp [hl], by simp [newLead], by simp [newLead], by simp [newLead],
      by simp [newLead], by simp [newLead]⟩

/-- A submission whose name and phone carry surrounding whitespace. -/
def exSub10 : Submission :=
  { site_slug := "plumbers_austin", name := " Jane ", phone := " 555-0100 ",
    email := some "j@example.com", service := none, message := none }

/-- Witness for C10: the padded name and phone are stored verbatim. -/
theorem c10_verbatim_witness :
    ∃ lead : Lead, (create_lead (emptyDB 0) exSub10).1.leads = (emptyDB 0).leads ++ [lead]
      ∧ lead.name = " Jane " ∧ lead.phone = " 555-0100 "
      ∧ lead.email = some "j@example.com" ∧ lead.service = none ∧ lead.message = none :=
  c10_fields_stored_verbatim (emptyDB 0) exSub10 (by decide) (by decide)

/-- Claim C5: two accepted submissions for the same slug, starting from
a state with no Site for that slug, leave exactly one Site row for the
slug and append exactly two Lead rows, both referencing that Site. -/
theorem c5_two_submissions_one_site (db : DB) (sub1 sub2 : Submission) (slug : String)
    (hs1 : sub1.site_slug = slug) (hs2 : sub2.site_slug = slug)
    (hnone : findSite db.sites slug = none)
    (hn1 : pyStrip sub1.name ≠ "") (hp1 : pyStrip sub1.phone ≠ "")
    (hn2 : pyStrip sub2.name ≠ "") (hp2 : pyStrip sub2.phone ≠ "") :
    ∃ site lead1 lead2,
      (create_lead (create_lead db sub1).1 sub2).1.sites = db.sites ++ [site]
      ∧ site.slug = slug
      ∧ ((create_lead (create_lead db sub1).1 sub2).1.sites.countP
          (fun s => s.slug == slug)) = 1
      ∧ (create_lead (create_lead db sub1).1 sub2).1.leads = db.leads ++ [lead1, lead2]
      ∧ lead1.site_id = site.id ∧ lead2.site_id = site.id := by
  subst hs1
  have hnone' : db.sites.find? (fun s => s.slug == sub1.site_slug) = none := hnone
  have e1 := create_lead_unknown_slug db sub1 hn1 hp1 hnone
  have hzero : db.sites.countP (fun s => s.slug == sub1.site_slug) = 0 := by
    rw [List.countP_eq_zero]
    exact fun s hs => List.find?_eq_none.mp hnone' s hs
  have hsite0 : ((newSite db sub1.site_slug).slug == sub1.site_slug) = true := by
    simp [newSite]
  have hfind2 : findSite (db.sites ++ [newSite db sub1.site_slug]) sub2.site_slug
      = some (newSite db sub1.site_slug) := by
    rw [hs2]
    show (db.sites ++ [newSite db sub1.site_slug]).find?
        (fun s => s.slug == sub1.site_slug) = some (newSite db sub1.site_slug)
    rw [List.find?_append, hnone', Option.none_or]
    exact List.find?_cons_of_pos _ hsite0
  have hpf : pyTruthy (newSite db sub1.site_slug).partner_email = false := by
    simp [newSite, pyTruthy]
  have e2 := create_lead_known_unpartnered
    { sites := db.sites ++ [newSite db sub1.site_slug],
      leads := db.leads ++ [newLead db (newSite db sub1.site_slug) sub1],
      nextSiteId := db.nextSiteId + 1, nextLeadId := db.nextLeadId + 1, now := db.now }
    sub2 (newSite db sub1.site_slug) hn2 hp2 hfind2 hpf
  refine ⟨newSite db sub1.site_slug,
    newLead db (newSite db sub1.site_slug) sub1,
    newLead
      { sites := db.sites ++ [newSite db sub1.site_slug],
        leads := db.leads ++ [newLead db (newSite db sub1.site_slug) sub1],
        nextSiteId := db.nextSiteId + 1, nextLeadId := db.nextLeadId + 1, now := db.now }
      (newSite db sub1.site_slug) sub2, ?_, ?_, ?_, ?_, ?_, ?_⟩
  · rw [e1]
    simp only [e2]
  · simp [newSite]
  · rw [e1]
    simp only [e2]
    simp [List.countP_append, hzero, List.countP_cons, hsite0]
  · rw [e1]
    simp only [e2]
    simp [List.append_assoc]
  · simp [newLead]
  · simp [newLead]

/-- Witness for C5: two concrete submissions for a fresh slug. -/
theorem c5_two_submissions_witness :
    ∃ site lead1 lead2,
      (create_lead (create_lead (emptyDB 0)
          { site_slug := "roof-repair_tulsa", name := "A", phone := "1",
            email := none, service := none, message := none }).1
          { site_slug := "roof-repair_tulsa", name := "B", phone := "2",
            email := none, service := none, message := none }).1.sites
        = (emptyDB 0).sites ++ [site]
      ∧ site.slug = "roof-repair_tulsa"
      ∧ ((create_lead (create_lead (emptyDB 0)
          { site_slug := "roof-repair_tulsa", name := "A", phone := "1",
            email := none, service := none, message := none }).1
          { site_slug := "roof-repair_tulsa", name := "B", phone := "2",
            email := none, service := none, message := none }).1.sites.countP
          (fun s => s.slug == "roof-repair_tulsa")) = 1
      ∧ (create_lead (create_lead (emptyDB 0)
          { site_slug := "roof-repair_tulsa", name := "A", phone := "1",
            email := none, service := none, message := none }).1
          { site_slug := "roof-repair_tulsa", name := "B", phone := "2",
            email := none, service := none, message := none }).1.leads
        = (emptyDB 0).leads ++ [lead1, lead2]
      ∧ lead1.site_id = site.id ∧ lead2.site_id = site.id :=
  c5_two_submissions_one_site (emptyDB 0) _ _ "roof-repair_tulsa"
    rfl rfl (by decide) (by decide) (by decide) (by decide) (by decide)

/-- Claim C6: when the slug resolves to an existing Site the intake flow
leaves the sites table exactly as it was (every field of every row
unchanged), and in general the only write the flow ever performs on the
sites table is appending at most one newly created Site (with no partner
contact) for the submitted slug. -/
theorem c6_sites_frame (db : DB) (sub : Submission) (s : Site)
    (hn : pyStrip sub.name ≠ "") (hp : pyStrip sub.phone ≠ "")
    (hfound : findSite db.sites sub.site_slug = some s) :
    (create_lead db sub).1.sites = db.sites
    ∧ ∀ db0 : DB, ∀ sub0 : Submission, ∃ t : List Site,
        (create_lead db0 sub0).1.sites = db0.sites ++ t
        ∧ t.length ≤ 1
        ∧ ∀ x ∈ t, x = newSite db0 sub0.site_slug ∧ x.partner_email = none
            ∧ x.slug = sub0.site_slug := by
  constructor
  · have hcond : ¬(pyStrip sub.name = "" ∨ pyStrip sub.phone = "") := not_or.mpr ⟨hn, hp⟩
    simp only [create_lead, if_neg hcond, resolveSite, hfound]
    split <;> simp
  · intro db0 sub0
    by_cases h0 : pyStrip sub0.name = "" ∨ pyStrip sub0.phone = ""
    · exact ⟨[], by simp [create_lead, if_pos h0], by simp, by simp⟩
    · cases hf : findSite db0.sites sub0.site_slug with
      | some s0 =>
        refine ⟨[], ?_, by simp, by simp⟩
        simp only [create_lead, if_neg h0, resolveSite, hf]
        split <;> simp
      | none =>
        refine ⟨[newSite db0 sub0.site_slug], ?_, by simp, ?_⟩
        · simp only [create_lead, if_neg h0, resolveSite, hf]
          split <;> simp
        · intro x hx
          rw [List.mem_singleton] at hx
          subst hx
          exact ⟨rfl, rfl, rfl⟩

/-- Witness for C6 at the concrete partnered site of `exDbP`. -/
theorem c6_sites_frame_witness :
    (create_lead exDbP exSubP).1.sites = exDbP.sites :=
  (c6_sites_frame exDbP exSubP exSiteP (by decide) (by decide) (by decide)).1

/-- Claim C7: the outreach trigger produces the notification artifact
for a site exactly when the site's partner contact is null and the
number of its leads inside the trailing 30-day window reaches the
threshold LEAD_THRESHOLD = 5; partnered sites and sites with fewer
recent leads produce nothing. -/
theorem c7_outreach_iff_null_partner_and_threshold (db : DB) (site : Site)
    (hmem : site ∈ db.sites)
    (hnodup : (db.sites.map Site.slug).Nodup) :
    outreachArtifact site (recentLeadCount db site.id)
        ∈ check_leads_and_trigger_outreach db
      ↔ site.partner_email = none
        ∧ LEAD_THRESHOLD ≤ recentLeadCount db site.id := by
  constructor
  · intro h
    obtain ⟨s', hs', heq⟩ := List.mem_filterMap.mp h
    have hs'mem : s' ∈ db.sites := (List.mem_filter.mp hs').1
    have hs'none : s'.partner_email = none := by
      have := (List.mem_filter.mp hs').2
      simpa [Option.isNone_iff_eq_none] using this
    simp only [] at heq
    by_cases hc : LEAD_THRESHOLD ≤ recentLeadCount db s'.id
    · rw [if_pos hc] at heq
      have heq' := Option.some.inj heq
      have hslug : s'.slug = site.slug := by
        simpa [outreachArtifact] using congrArg Outreach.slug heq'
      have hss : s' = site := List.inj_on_of_nodup_map hnodup hs'mem hmem hslug
      subst hss
      exact ⟨hs'none, hc⟩
    · rw [if_neg hc] at heq
      exact absurd heq (by simp)
  · rintro ⟨hpn, hcnt⟩
    apply List.mem_filterMap.mpr
    refine ⟨site, List.mem_filter.mpr ⟨hmem, by simp [hpn]⟩, ?_⟩
    simp only []
    rw [if_pos hcnt]

/-- An unpartnered site used to witness the outreach trigger. -/
def exSite7 : Site :=
  { id := 1, slug := "plumbers_boise", niche := "Plumbers", city := "Boise",
    partner_email := none }

/-- A database with `exSite7` and five leads inside the 30-day window. -/
def exDb7 : DB :=
  { sites := [exSite7]
    leads :=
      [ { id := 1, site_id := 1, name := "A", phone := "1", email := none,
          service := none, message := none, timestamp := 9000000, routed := false },
        { id := 2, site_id := 1, name := "B", phone := "2", email := none,
          service := none, message := none, timestamp := 9100000, routed := false },
        { id := 3, site_id := 1, name := "C", phone := "3", email := none,
          service := none, message := none, timestamp := 9200000, routed := false },
        { id := 4, site_id := 1, name := "D", phone := "4", email := none,
          service := none, message := none, timestamp := 9300000, routed := false },
        { id := 5, site_id := 1, name := "E", phone := "5", email := none,
          service := none, message := none, timestamp := 9400000, routed := false } ]
    nextSiteId := 2, nextLeadId := 6, now := 10000000 }

/-- Witness for C7: the concrete unpartnered site with five recent leads
gets its notification artifact. -/
theorem c7_outreach_witness :
    outreachArtifact exSite7 5 ∈ check_leads_and_trigger_outreach exDb7 := by
  have h := (c7_outreach_iff_null_partner_and_threshold exDb7 exSite7
    (by decide) (by decide)).mpr ⟨rfl, by decide⟩
  have hc : recentLeadCount exDb7 exSite7.id = 5 := by decide
  rw [hc] at h
  exact h

end LeadEngine

/-- Claim C8: attempting site generation with the ranked-niche file
absent, or present with an empty list, fails with the descriptive fatal
message and produces no output files. -/
theorem c8_missing_or_empty_ranking_fatal_no_output :
    (SiteGenerator.generate_main none
        = .error "data/top_niches.json not found. Run niche_selection.py first."
      ∧ SiteGenerator.writtenFiles (SiteGenerator.generate_main none) = [])
    ∧ (SiteGenerator.generate_main (some [])
        = .error "No niche data found. Run niche_selection.py first."
      ∧ SiteGenerator.writtenFiles (SiteGenerator.generate_main (some [])) = []) :=
  ⟨⟨rfl, rfl⟩, ⟨rfl, rfl⟩⟩
